import Mathlib

/-!
Verification development for the VCF Claim Value Estimator projection engine.

The computational core of the source (bracket-table lookups, age-indexed
growth, work-life lookup, discount-rate bands, the year-projection loop and
the offset netting) is embedded here over exact rational arithmetic, with
each definition translated from the corresponding source function.
-/

set_option maxHeartbeats 1000000
set_option maxRecDepth 100000

/-- A row of the effective-tax bracket table: income threshold and rate. -/
structure TaxRow where
  income : ℚ
  rate : ℚ
deriving DecidableEq, Inhabited

/-- Default NY effective tax rates (the shipped demo table). -/
def NY_EFFECTIVE_TAX_TABLE : List TaxRow :=
  [⟨10000, 0.1482⟩, ⟨20000, 0.1481⟩, ⟨25000, 0.1479⟩, ⟨30000, 0.1386⟩,
   ⟨35000, 0.1293⟩, ⟨40000, 0.1345⟩, ⟨45000, 0.1396⟩, ⟨50000, 0.1474⟩,
   ⟨60000, 0.1551⟩, ⟨70000, 0.1629⟩, ⟨80000, 0.1706⟩, ⟨90000, 0.1864⟩,
   ⟨100000, 0.2021⟩, ⟨125000, 0.2180⟩, ⟨150000, 0.2338⟩, ⟨175000, 0.2497⟩,
   ⟨200000, 0.2655⟩, ⟨225000, 0.3017⟩, ⟨350000, 0.3378⟩]

/-- The threshold scan shared by both bracket lookups: walk the table in
order, keeping the current row while the query is at or above the row's
threshold, and stop (keeping the previous row) at the first threshold that
exceeds the query.  Mirrors the `for` loop with `break` in the source. -/
def scanRows {α : Type} (key : α → ℚ) (q : ℚ) : α → List α → α
  | cur, [] => cur
  | cur, r :: rest => if key r ≤ q then scanRows key q r rest else cur

/-- Bracket (threshold) row lookup: `none` on an empty table, otherwise the
scan started at the first row (exactly the source loop, which initialises
the accumulator to `table[0]` and scans the whole table from index 0). -/
def bracketLookup {α : Type} (key : α → ℚ) (q : ℚ) (table : List α) : Option α :=
  match table with
  | [] => none
  | r0 :: rest => some (scanRows key q r0 (r0 :: rest))

/-- Bracket (threshold) lookup for TAX (no interpolation); returns 0 on an
empty table, else the scanned row's rate. -/
def interpolateTaxRate (income : ℚ) (table : List TaxRow) : ℚ :=
  match bracketLookup (fun r => r.income) income table with
  | none => 0
  | some r => r.rate

/-- A row of the personal-consumption table: income threshold plus the five
household columns. -/
structure ConsRow where
  income : ℚ
  Single0 : ℚ
  Single1Plus : ℚ
  Married0 : ℚ
  Married1 : ℚ
  Married2Plus : ℚ
deriving DecidableEq, Inhabited

/-- Personal consumption table (percent of income) keyed by pre-disability
income. -/
def CONSUMPTION_TABLE : List ConsRow :=
  [⟨10000, 0.779, 0.185, 0.370, 0.194, 0.131⟩,
   ⟨20000, 0.763, 0.182, 0.344, 0.184, 0.126⟩,
   ⟨25000, 0.755, 0.180, 0.330, 0.180, 0.123⟩,
   ⟨30000, 0.747, 0.178, 0.317, 0.175, 0.121⟩,
   ⟨35000, 0.753, 0.185, 0.290, 0.169, 0.120⟩,
   ⟨40000, 0.751, 0.185, 0.258, 0.157, 0.113⟩,
   ⟨45000, 0.748, 0.185, 0.226, 0.145, 0.107⟩,
   ⟨50000, 0.732, 0.184, 0.219, 0.142, 0.105⟩,
   ⟨60000, 0.715, 0.182, 0.211, 0.138, 0.103⟩,
   ⟨70000, 0.682, 0.175, 0.189, 0.126, 0.094⟩,
   ⟨80000, 0.641, 0.165, 0.172, 0.116, 0.087⟩,
   ⟨90000, 0.620, 0.160, 0.164, 0.110, 0.083⟩,
   ⟨100000, 0.599, 0.155, 0.155, 0.105, 0.080⟩,
   ⟨125000, 0.548, 0.143, 0.143, 0.097, 0.073⟩,
   ⟨150000, 0.519, 0.137, 0.132, 0.090, 0.069⟩,
   ⟨175000, 0.490, 0.131, 0.120, 0.084, 0.084⟩,
   ⟨200000, 0.337, 0.096, 0.100, 0.070, 0.054⟩,
   ⟨225000, 0.184, 0.060, 0.081, 0.056, 0.043⟩]

/-- Marital status. -/
inductive Marital
  | single
  | married
deriving DecidableEq, Inhabited

/-- Column selection of the consumption table, a pure function of marital
status and the number of children under 23 (the inner arrow function of the
source `interpolateConsumption`). -/
def consumptionColumn (marital : Marital) (childrenUnder23 : ℕ) : ConsRow → ℚ :=
  match marital with
  | Marital.single => if childrenUnder23 ≥ 1 then ConsRow.Single1Plus else ConsRow.Single0
  | Marital.married =>
      if childrenUnder23 ≥ 2 then ConsRow.Married2Plus
      else if childrenUnder23 = 1 then ConsRow.Married1
      else ConsRow.Married0

/-- Bracket (threshold) lookup for CONSUMPTION (no interpolation); 0 on an
empty table, else the selected column of the scanned row. -/
def interpolateConsumption (preIncome : ℚ) (marital : Marital)
    (childrenUnder23 : ℕ) (table : List ConsRow) : ℚ :=
  match bracketLookup (fun r => r.income) preIncome table with
  | none => 0
  | some r => consumptionColumn marital childrenUnder23 r

/-- Helper: count children under 23 in year t (0-indexed), capped at 2. -/
def getChildCountUnder23 (ages : List (Option ℤ)) (yearIndex : ℤ) : ℕ :=
  min
    (ages.foldl
      (fun acc a =>
        match a with
        | some age => if age + yearIndex < 23 then acc + 1 else acc
        | none => acc)
      0)
    2

/-- Age-specific nominal earnings growth (Table 3 excerpt), keyed by age. -/
def AGE_GROWTH : List (ℚ × ℚ) :=
  [(18, 0.09523), (19, 0.09364), (20, 0.09209), (21, 0.09057), (22, 0.08856),
   (23, 0.08655), (24, 0.08454), (25, 0.08253), (26, 0.08053), (27, 0.07853),
   (28, 0.07654), (29, 0.07455), (30, 0.07256), (31, 0.07058), (32, 0.0686),
   (33, 0.06663), (34, 0.06465), (35, 0.06269), (36, 0.06072), (37, 0.05876),
   (38, 0.0568), (39, 0.05484), (40, 0.0529), (41, 0.05095), (42, 0.04901),
   (43, 0.04707), (44, 0.04514), (45, 0.04321), (46, 0.04128), (47, 0.03935),
   (48, 0.03743), (49, 0.03551), (50, 0.0336), (51, 0.03169)]

/-- Age-specific growth lookup: tabulated rate if the age key exists, else
the configured fallback for ages 52 and above, else the hard-coded 3%. -/
def ageGrowth (age : ℚ) (fallback : ℚ) : ℚ :=
  match AGE_GROWTH.find? (fun p => decide (p.1 = age)) with
  | some p => p.2
  | none => if 52 ≤ age then fallback else 0.03

/-- After-tax discount rate bands (Table 5): 2.6% up to 35, 2.4% for 36-54,
2.1% for 55 and older. -/
def discountRateAfterTaxForAge (age : ℚ) : ℚ :=
  if age ≤ 35 then 0.026
  else if age ≤ 54 then 0.024
  else 0.021

/-- A row of the firm work-life table: age, remaining years, stored exit age. -/
structure WLRow where
  age : ℤ
  years : ℚ
  exit : ℤ
deriving DecidableEq, Inhabited

/-- Firm Work-Life Expectancy table (ages 25-70). -/
def WORKLIFE_TABLE : List WLRow :=
  [⟨25, 34.87, 60⟩, ⟨26, 34.04, 60⟩, ⟨27, 33.20, 60⟩, ⟨28, 32.36, 60⟩,
   ⟨29, 31.51, 61⟩, ⟨30, 30.66, 61⟩, ⟨31, 29.81, 61⟩, ⟨32, 28.94, 61⟩,
   ⟨33, 28.08, 61⟩, ⟨34, 27.23, 61⟩, ⟨35, 26.37, 61⟩, ⟨36, 25.52, 62⟩,
   ⟨37, 24.67, 62⟩, ⟨38, 23.83, 62⟩, ⟨39, 22.98, 62⟩, ⟨40, 22.14, 62⟩,
   ⟨41, 21.30, 62⟩, ⟨42, 20.46, 62⟩, ⟨43, 19.64, 63⟩, ⟨44, 18.82, 63⟩,
   ⟨45, 18.01, 63⟩, ⟨46, 17.22, 63⟩, ⟨47, 16.42, 63⟩, ⟨48, 15.64, 64⟩,
   ⟨49, 14.87, 64⟩, ⟨50, 14.13, 64⟩, ⟨51, 13.39, 64⟩, ⟨52, 12.66, 65⟩,
   ⟨53, 11.93, 65⟩, ⟨54, 11.22, 65⟩, ⟨55, 10.53, 66⟩, ⟨56, 9.87, 66⟩,
   ⟨57, 9.21, 66⟩, ⟨58, 8.58, 67⟩, ⟨59, 7.95, 67⟩, ⟨60, 7.36, 67⟩,
   ⟨61, 6.81, 68⟩, ⟨62, 6.33, 68⟩, ⟨63, 5.90, 69⟩, ⟨64, 5.51, 70⟩,
   ⟨65, 5.17, 70⟩, ⟨66, 4.89, 71⟩, ⟨67, 4.65, 72⟩, ⟨68, 4.43, 72⟩,
   ⟨69, 4.21, 73⟩, ⟨70, 4.01, 74⟩]

/-- JavaScript `Math.round`: round half toward positive infinity. -/
def jsRound (q : ℚ) : ℤ := ⌊q + 1 / 2⌋

/-- The clamped rounded lookup age: `Math.max(minAge, Math.min(maxAge,
Math.round(age)))` with the bounds taken from the first and last table rows. -/
def clampAge (age : ℚ) : ℤ :=
  max WORKLIFE_TABLE.headI.age (min (WORKLIFE_TABLE.getLastD default).age (jsRound age))

/-- Result of the work-life lookup: rounded remaining years and the derived
expected exit age. -/
structure WorklifeResult where
  years : ℤ
  exitAge : ℤ
deriving DecidableEq, Inhabited

/-- Work-life lookup: exact match on the clamped rounded age, rounded
remaining years, and exit age computed as `round(age + roundedYears)` from
the unclamped input age.  The `none` branch models the source's non-null
assertion on `find` and is proved unreachable. -/
def lookupWorklife (age : ℚ) : WorklifeResult :=
  let a := clampAge age
  match WORKLIFE_TABLE.find? (fun r => decide (r.age = a)) with
  | some entry =>
      let roundedYears := jsRound entry.years
      ⟨roundedYears, jsRound (age + (roundedYears : ℚ))⟩
  | none => ⟨0, 0⟩

/-- Claim mode. -/
inductive Mode
  | injury
  | wrongfulDeath
deriving DecidableEq, Inhabited

/-- The two orderings for applying the unemployment factor. -/
inductive UnempTiming
  | before_medical
  | after_medical
deriving DecidableEq, Inhabited

/-- The full projection configuration supplied to the engine (the component
state feeding the `results` memo in the source).  `none` models the `"auto"`
sentinel for tax rate and discount override, and the `"none"` sentinel for
child ages. -/
structure Config where
  mode : Mode
  ageAtStart : ℚ
  years : ℤ
  baseIncome : ℚ
  taxRate : Option ℚ
  marital : Marital
  child1Age : Option ℤ
  child2Age : Option ℤ
  manualConsumption : Bool
  consumptionPct : ℚ
  useAgeSpecificGrowth : Bool
  earningsGrowthFixed : ℚ
  retirementPct : ℚ
  medicalBase : ℚ
  medicalGrowth : ℚ
  unemploymentFactor : ℚ
  discountOverride : Option ℚ
  unemploymentTiming : UnempTiming
  offsetAnnual : ℚ
  offsetYears : ℤ
  offsetLumpSum : ℚ
  useFirmWorklife : Bool
deriving DecidableEq, Inhabited

/-- One projection year's full breakdown (the object pushed onto `rows`). -/
structure YearRow where
  year : ℕ
  age : ℚ
  earnGrowth : ℚ
  projectedIncome : ℚ
  retirement : ℚ
  incomePlusRet : ℚ
  taxRate : ℚ
  postTaxProjectedIncome : ℚ
  consumptionRate : ℚ
  consumptionAmt : ℚ
  incomeLessConsumption : ℚ
  healthContribution : ℚ
  unemploymentAdjIncome : ℚ
  postTaxAdjusted : ℚ
  discounted : ℚ
deriving DecidableEq, Inhabited

/-- Resolved effective tax rate: auto via bracket lookup on base income, or
the manual override. -/
def effTaxOf (cfg : Config) : ℚ :=
  match cfg.taxRate with
  | none => interpolateTaxRate cfg.baseIncome NY_EFFECTIVE_TAX_TABLE
  | some r => r

/-- Resolved after-tax discount rate: auto via the age band, or the manual
override. -/
def discOf (cfg : Config) : ℚ :=
  match cfg.discountOverride with
  | none => discountRateAfterTaxForAge cfg.ageAtStart
  | some d => d

/-- Projection horizon: the rounded firm work-life years, or the manually
supplied year count. -/
def calcYears (cfg : Config) : ℤ :=
  if cfg.useFirmWorklife then (lookupWorklife cfg.ageAtStart).years else cfg.years

/-- The body of one iteration of the year loop: grows the carried salary and
medical values, resolves the year's consumption rate, applies the
deductions in the configured order, and emits the year's row. -/
def yearRow (cfg : Config) (effTax disc afterTaxAtStart salaryPrev medPrev : ℚ)
    (t : ℕ) : YearRow :=
  let age : ℚ := cfg.ageAtStart + (t : ℚ)
  let earnGrowth := if cfg.useAgeSpecificGrowth then ageGrowth age 0.03 else cfg.earningsGrowthFixed
  let salary := salaryPrev * (1 + earnGrowth)
  let med := medPrev * (1 + cfg.medicalGrowth)
  let retirement := salary * cfg.retirementPct
  let incomePlusRet := salary + retirement
  let yearConsumption : ℚ :=
    match cfg.mode with
    | Mode.wrongfulDeath =>
        let childUnder23Count := getChildCountUnder23 [cfg.child1Age, cfg.child2Age] ((t : ℤ) - 1)
        if cfg.manualConsumption then cfg.consumptionPct
        else interpolateConsumption cfg.baseIncome cfg.marital childUnder23Count CONSUMPTION_TABLE
    | Mode.injury => 0
  match cfg.unemploymentTiming with
  | UnempTiming.before_medical =>
      let unemploymentAdjIncome := incomePlusRet * (1 - cfg.unemploymentFactor)
      let postTaxBase := unemploymentAdjIncome * (1 - effTax)
      let consumptionAmt :=
        match cfg.mode with
        | Mode.wrongfulDeath => afterTaxAtStart * yearConsumption
        | Mode.injury => 0
      let afterConsumption := postTaxBase - consumptionAmt
      let subtotalBeforeDiscount := afterConsumption + med
      { year := t, age := age, earnGrowth := earnGrowth, projectedIncome := salary,
        retirement := retirement, incomePlusRet := incomePlusRet, taxRate := effTax,
        postTaxProjectedIncome := postTaxBase, consumptionRate := yearConsumption,
        consumptionAmt := consumptionAmt, incomeLessConsumption := afterConsumption,
        healthContribution := med, unemploymentAdjIncome := unemploymentAdjIncome,
        postTaxAdjusted := subtotalBeforeDiscount,
        discounted := subtotalBeforeDiscount / (1 + disc) ^ t }
  | UnempTiming.after_medical =>
      let postTaxBase := incomePlusRet * (1 - effTax)
      let consumptionAmt :=
        match cfg.mode with
        | Mode.wrongfulDeath => afterTaxAtStart * yearConsumption
        | Mode.injury => 0
      let afterConsumption := postTaxBase - consumptionAmt
      let subtotal := afterConsumption + med
      let unemploymentAdjIncome := subtotal * (1 - cfg.unemploymentFactor)
      { year := t, age := age, earnGrowth := earnGrowth, projectedIncome := salary,
        retirement := retirement, incomePlusRet := incomePlusRet, taxRate := effTax,
        postTaxProjectedIncome := postTaxBase, consumptionRate := yearConsumption,
        consumptionAmt := consumptionAmt, incomeLessConsumption := afterConsumption,
        healthContribution := med, unemploymentAdjIncome := unemploymentAdjIncome,
        postTaxAdjusted := unemploymentAdjIncome,
        discounted := unemploymentAdjIncome / (1 + disc) ^ t }

/-- The year loop: starting from the carried salary/medical state at year
`t`, produce the remaining `n` rows in order, threading each year's grown
salary and medical value into the next iteration. -/
def projRows (cfg : Config) (effTax disc afterTax : ℚ) :
    ℚ → ℚ → ℕ → ℕ → List YearRow
  | _, _, _, 0 => []
  | salary, med, t, n + 1 =>
      let r := yearRow cfg effTax disc afterTax salary med t
      r :: projRows cfg effTax disc afterTax r.projectedIncome r.healthContribution (t + 1) n

/-- The full ordered sequence of year rows for a configuration: the loop run
from year 1 with salary initialised to base income and medical to its base. -/
def rowsOf (cfg : Config) : List YearRow :=
  projRows cfg (effTaxOf cfg) (discOf cfg) (cfg.baseIncome * (1 - effTaxOf cfg))
    cfg.baseIncome cfg.medicalBase 1 (calcYears cfg).toNat

/-- Gross present value: the sum of the discounted column of the rows. -/
def pvSumOf (cfg : Config) : ℚ :=
  ((rowsOf cfg).map YearRow.discounted).sum

/-- The periodic-offset discount loop: `for (t = 1; t <= n; t++) pvOffset
+= amt / (1+disc)^t`. -/
def offsetLoopSum (amt disc : ℚ) : ℕ → ℚ
  | 0 => 0
  | n + 1 => offsetLoopSum amt disc n + amt / (1 + disc) ^ (n + 1)

/-- Offsets present value: the guarded periodic annuity sum plus the lump
sum added undiscounted. -/
def pvOffsetOf (cfg : Config) : ℚ :=
  (if 0 < cfg.offsetAnnual ∧ 0 < cfg.offsetYears then
    offsetLoopSum cfg.offsetAnnual (discOf cfg) cfg.offsetYears.toNat
  else 0) + cfg.offsetLumpSum

/-- Net present value: gross minus offsets, floored at zero. -/
def netPVOf (cfg : Config) : ℚ :=
  max 0 (pvSumOf cfg - pvOffsetOf cfg)

/-- The engine's durable output. -/
structure ProjResults where
  pvSum : ℚ
  pvOffset : ℚ
  netPV : ℚ
  effTax : ℚ
  disc : ℚ
  rows : List YearRow
deriving DecidableEq, Inhabited

/-- The full projection result for a configuration (the value of the
`results` memo in the source). -/
def results (cfg : Config) : ProjResults :=
  { pvSum := pvSumOf cfg, pvOffset := pvOffsetOf cfg, netPV := netPVOf cfg,
    effTax := effTaxOf cfg, disc := discOf cfg, rows := rowsOf cfg }

/-- Restatement of the bracket-lookup contract in the spec's words, for the
tax table: the rate of the row with the highest threshold that is at most
the query, the first row's rate when the query is below every threshold,
and 0 for an empty table.  Used only to compare against
`interpolateTaxRate`. -/
def specTaxRate (income : ℚ) (table : List TaxRow) : ℚ :=
  match table with
  | [] => 0
  | r0 :: _ => ((table.filter (fun r => decide (r.income ≤ income))).getLastD r0).rate

/-- Restatement of the bracket-lookup contract in the spec's words, for the
consumption table (same rule, then the household column is selected).  Used
only to compare against `interpolateConsumption`. -/
def specConsumptionRate (preIncome : ℚ) (marital : Marital)
    (childrenUnder23 : ℕ) (table : List ConsRow) : ℚ :=
  match table with
  | [] => 0
  | r0 :: _ =>
      consumptionColumn marital childrenUnder23
        ((table.filter (fun r => decide (r.income ≤ preIncome))).getLastD r0)

/-- A deliberately trivial base configuration used to build the concrete
instances below. -/
def cfgBase : Config :=
  { mode := Mode.injury, ageAtStart := 40, years := 1, baseIncome := 0,
    taxRate := some 0, marital := Marital.single, child1Age := none,
    child2Age := none, manualConsumption := false, consumptionPct := 0,
    useAgeSpecificGrowth := false, earningsGrowthFixed := 0,
    retirementPct := 0, medicalBase := 0, medicalGrowth := 0,
    unemploymentFactor := 0, discountOverride := some 0,
    unemploymentTiming := UnempTiming.before_medical, offsetAnnual := 0,
    offsetYears := 0, offsetLumpSum := 0, useFirmWorklife := false }

/-- Zero base income with a positive unemployment factor: every per-year
quantity is 0, so the strict deduction ordering degenerates to equality. -/
def cfgZero : Config :=
  { cfgBase with unemploymentFactor := 0.06 }

/-- A concrete before-medical configuration with positive income, tax and
unemployment factor. -/
def cfgBM : Config :=
  { cfgBase with baseIncome := 100, taxRate := some 0.2,
                 unemploymentFactor := 0.06 }

/-- The single year row produced by `cfgBM`. -/
def rowBM : YearRow := ((results cfgBM).rows).getD 0 default

/-- A concrete after-medical (legacy ordering) configuration. -/
def cfgAM : Config :=
  { cfgBase with baseIncome := 100, taxRate := some 0.2,
                 unemploymentFactor := 0.06, medicalBase := 50,
                 unemploymentTiming := UnempTiming.after_medical }

/-- The single year row produced by `cfgAM`. -/
def rowAM : YearRow := ((results cfgAM).rows).getD 0 default

/-- A concrete wrongful-death configuration with a manual consumption rate. -/
def cfgWD : Config :=
  { cfgBase with mode := Mode.wrongfulDeath, baseIncome := 100,
                 taxRate := some 0.2, manualConsumption := true,
                 consumptionPct := 0.1 }

/-- The single year row produced by `cfgWD`. -/
def rowWD : YearRow := ((results cfgWD).rows).getD 0 default

/-- A concrete injury-mode configuration. -/
def cfgInj : Config :=
  { cfgBase with baseIncome := 100, taxRate := some 0.2, medicalBase := 50 }

/-- The single year row produced by `cfgInj`. -/
def rowInj : YearRow := ((results cfgInj).rows).getD 0 default

/-- A configuration whose offsets exceed its gross present value: no
projection years, but a positive lump-sum offset. -/
def cfgOffsetW : Config :=
  { cfgBase with years := 0, offsetLumpSum := 100 }

/-- A configuration with a negative periodic offset amount and positive
offset years, plus a lump sum. -/
def cfgNegOffset : Config :=
  { cfgBase with years := 0, offsetAnnual := -50, offsetYears := 3,
                 offsetLumpSum := 25 }

/-- The spec's exemplar scenario: start age 55, wrongful death, married with
one dependent aged 10, base income 100000, firm work-life horizon,
before-medical ordering, auto tax/discount/consumption resolution. -/
def cfgC5 : Config :=
  { mode := Mode.wrongfulDeath, ageAtStart := 55, years := 12,
    baseIncome := 100000, taxRate := none, marital := Marital.married,
    child1Age := some 10, child2Age := none, manualConsumption := false,
    consumptionPct := 0.105, useAgeSpecificGrowth := true,
    earningsGrowthFixed := 0.03, retirementPct := 0.04, medicalBase := 7280,
    medicalGrowth := 0.023, unemploymentFactor := 0.06,
    discountOverride := none, unemploymentTiming := UnempTiming.before_medical,
    offsetAnnual := 0, offsetYears := 0, offsetLumpSum := 0,
    useFirmWorklife := true }

theorem results_rows (cfg : Config) : (results cfg).rows = rowsOf cfg := rfl

theorem results_effTax (cfg : Config) : (results cfg).effTax = effTaxOf cfg := rfl

theorem results_disc (cfg : Config) : (results cfg).disc = discOf cfg := rfl

theorem results_pvSum (cfg : Config) : (results cfg).pvSum = pvSumOf cfg := rfl

theorem results_pvOffset (cfg : Config) : (results cfg).pvOffset = pvOffsetOf cfg := rfl

theorem results_netPV (cfg : Config) : (results cfg).netPV = netPVOf cfg := rfl

theorem mem_projRows {cfg : Config} {e d a : ℚ} :
    ∀ {n t : ℕ} {s m : ℚ} {r : YearRow}, r ∈ projRows cfg e d a s m t n →
      ∃ s2 m2 t2, r = yearRow cfg e d a s2 m2 t2 := by
  intro n
  induction n with
  | zero => intro t s m r h; simp [projRows] at h
  | succ k ih =>
      intro t s m r h
      simp only [projRows] at h
      rcases List.mem_cons.mp h with h1 | h2
      · exact ⟨s, m, t, h1⟩
      · exact ih h2

theorem mem_rowsOf {cfg : Config} {r : YearRow} (h : r ∈ rowsOf cfg) :
    ∃ s m t, r = yearRow cfg (effTaxOf cfg) (discOf cfg)
      (cfg.baseIncome * (1 - effTaxOf cfg)) s m t :=
  mem_projRows h

/-- Claim C1 (amended): in the before-medical ordering every year row
satisfies unemploymentAdjusted = incomePlusRet × (1−unemploymentFactor),
postTax = unemploymentAdjusted × (1−effectiveTaxRate), afterConsumption =
postTax − consumptionDollars and subtotal = afterConsumption + medical; the
two deductions are strict whenever the factor is positive and the quantity
being reduced is positive. -/
theorem before_medical_ordering (cfg : Config)
    (ht : cfg.unemploymentTiming = UnempTiming.before_medical) :
    ∀ r ∈ (results cfg).rows,
      r.taxRate = (results cfg).effTax ∧
      r.unemploymentAdjIncome = r.incomePlusRet * (1 - cfg.unemploymentFactor) ∧
      r.postTaxProjectedIncome = r.unemploymentAdjIncome * (1 - r.taxRate) ∧
      r.incomeLessConsumption = r.postTaxProjectedIncome - r.consumptionAmt ∧
      r.postTaxAdjusted = r.incomeLessConsumption + r.healthContribution ∧
      (0 < cfg.unemploymentFactor → 0 < r.incomePlusRet →
        r.unemploymentAdjIncome < r.incomePlusRet) ∧
      (0 < r.taxRate → 0 < r.unemploymentAdjIncome →
        r.postTaxProjectedIncome < r.unemploymentAdjIncome) := by
  intro r hr
  rw [results_rows] at hr
  obtain ⟨s, m, t, rfl⟩ := mem_rowsOf hr
  rw [results_effTax]
  simp only [yearRow, ht]
  refine ⟨trivial, trivial, trivial, trivial, trivial, ?_, ?_⟩
  · intro h1 h2
    nlinarith [mul_pos h2 h1]
  · intro h1 h2
    nlinarith [mul_pos h2 h1]

/-- Claim C1 counterexample: with zero base income and a positive
unemployment factor, the before-medical branch yields a year row where the
unemployment-adjusted figure equals incomePlusRet, so the claimed strict
inequality "unemploymentAdjusted < incomePlusRet whenever
unemploymentFactor > 0" fails. -/
theorem before_medical_strictness_counterexample :
    cfgZero.unemploymentTiming = UnempTiming.before_medical ∧
    0 < cfgZero.unemploymentFactor ∧
    ∃ r ∈ (results cfgZero).rows, ¬ r.unemploymentAdjIncome < r.incomePlusRet := by
  with_unfolding_all decide

/-- Claim C1 witness at a concrete positive-income configuration. -/
theorem before_medical_ordering_witness :
    rowBM.unemploymentAdjIncome = rowBM.incomePlusRet * (1 - cfgBM.unemploymentFactor) ∧
    rowBM.unemploymentAdjIncome < rowBM.incomePlusRet ∧
    rowBM.postTaxProjectedIncome < rowBM.unemploymentAdjIncome := by
  have h := before_medical_ordering cfgBM rfl rowBM (by with_unfolding_all decide)
  exact ⟨h.2.1, h.2.2.2.2.2.1 (by with_unfolding_all decide) (by with_unfolding_all decide),
    h.2.2.2.2.2.2 (by with_unfolding_all decide) (by with_unfolding_all decide)⟩

/-- Claim C2: in the after-medical (legacy) ordering every year row
satisfies postTax = incomePlusRet × (1−effectiveTaxRate), afterConsumption
= postTax − consumptionDollars, and the pre-discount subtotal equals
(afterConsumption + medical) × (1−unemploymentFactor), which is also the
reported unemployment-adjusted figure for the year. -/
theorem after_medical_ordering (cfg : Config)
    (ht : cfg.unemploymentTiming = UnempTiming.after_medical) :
    ∀ r ∈ (results cfg).rows,
      r.taxRate = (results cfg).effTax ∧
      r.postTaxProjectedIncome = r.incomePlusRet * (1 - r.taxRate) ∧
      r.incomeLessConsumption = r.postTaxProjectedIncome - r.consumptionAmt ∧
      r.postTaxAdjusted =
        (r.incomeLessConsumption + r.healthContribution) * (1 - cfg.unemploymentFactor) ∧
      r.unemploymentAdjIncome = r.postTaxAdjusted := by
  intro r hr
  rw [results_rows] at hr
  obtain ⟨s, m, t, rfl⟩ := mem_rowsOf hr
  rw [results_effTax]
  simp only [yearRow, ht]
  exact ⟨trivial, trivial, trivial, trivial, trivial⟩

/-- Claim C2 witness at a concrete legacy-ordering configuration. -/
theorem after_medical_ordering_witness :
    rowAM.postTaxProjectedIncome = rowAM.incomePlusRet * (1 - rowAM.taxRate) ∧
    rowAM.postTaxAdjusted =
      (rowAM.incomeLessConsumption + rowAM.healthContribution) * (1 - cfgAM.unemploymentFactor) ∧
    rowAM.unemploymentAdjIncome = rowAM.postTaxAdjusted := by
  have h := after_medical_ordering cfgAM rfl rowAM (by with_unfolding_all decide)
  exact ⟨h.2.1, h.2.2.2.1, h.2.2.2.2⟩

/-- Claim C3: the consumption dollar amount of every year row is anchored
to the original after-tax base income (base income times one minus the
resolved effective tax rate, times the year's consumption rate) in
wrongful-death mode, and both the consumption rate and amount are zero in
injury mode. -/
theorem consumption_anchoring (cfg : Config) :
    ∀ r ∈ (results cfg).rows,
      (cfg.mode = Mode.wrongfulDeath →
        r.consumptionAmt = cfg.baseIncome * (1 - (results cfg).effTax) * r.consumptionRate) ∧
      (cfg.mode = Mode.injury → r.consumptionRate = 0 ∧ r.consumptionAmt = 0) := by
  intro r hr
  rw [results_rows] at hr
  obtain ⟨s, m, t, rfl⟩ := mem_rowsOf hr
  rw [results_effTax]
  cases ht : cfg.unemploymentTiming <;> cases hm : cfg.mode <;>
    simp [yearRow, ht, hm]

/-- Claim C3 witness: a wrongful-death row and an injury row at concrete
configurations. -/
theorem consumption_anchoring_witness :
    rowWD.consumptionAmt = cfgWD.baseIncome * (1 - (results cfgWD).effTax) * rowWD.consumptionRate ∧
    rowInj.consumptionRate = 0 ∧ rowInj.consumptionAmt = 0 := by
  have h1 := consumption_anchoring cfgWD rowWD (by with_unfolding_all decide)
  have h2 := consumption_anchoring cfgInj rowInj (by with_unfolding_all decide)
  exact ⟨h1.1 rfl, h2.2 rfl⟩

theorem offsetLoopSum_eq (amt d : ℚ) :
    ∀ n : ℕ, offsetLoopSum amt d n = ∑ t ∈ Finset.Icc 1 n, amt / (1 + d) ^ t := by
  intro n
  induction n with
  | zero => simp [offsetLoopSum]
  | succ k ih =>
      rw [offsetLoopSum, ih, Finset.sum_Icc_succ_top (by omega)]

/-- Claim C4: the offsets present value is the discounted periodic annuity
sum (when a positive periodic offset is configured) plus the undiscounted
lump sum, and the net present value is the gross present value minus the
offsets, floored at zero, hence exactly zero whenever offsets exceed gross. -/
theorem offsets_and_net_floor (cfg : Config) :
    (results cfg).pvOffset =
      (if 0 < cfg.offsetAnnual ∧ 0 < cfg.offsetYears then
        ∑ t ∈ Finset.Icc 1 cfg.offsetYears.toNat,
          cfg.offsetAnnual / (1 + (results cfg).disc) ^ t
      else 0) + cfg.offsetLumpSum ∧
    (results cfg).netPV = max 0 ((results cfg).pvSum - (results cfg).pvOffset) ∧
    ((results cfg).pvSum < (results cfg).pvOffset → (results cfg).netPV = 0) := by
  refine ⟨?_, rfl, ?_⟩
  · rw [results_pvOffset, results_disc, pvOffsetOf]
    congr 1
    split_ifs with h
    · exact offsetLoopSum_eq cfg.offsetAnnual (discOf cfg) cfg.offsetYears.toNat
    · rfl
  · intro h
    rw [results_netPV, netPVOf, results_pvSum, results_pvOffset] at *
    exact max_eq_left (by linarith)

/-- Claim C4 witness: a configuration with no projection years and a
positive lump-sum offset has offsets exceeding gross and a net present
value of exactly zero. -/
theorem offsets_and_net_floor_witness :
    (results cfgOffsetW).pvSum < (results cfgOffsetW).pvOffset ∧
    (results cfgOffsetW).netPV = 0 := by
  have h := offsets_and_net_floor cfgOffsetW
  exact ⟨by with_unfolding_all decide, h.2.2 (by with_unfolding_all decide)⟩

/-- Claim C10: when the periodic offset amount or the offset year count is
not strictly positive, the offsets present value is exactly the lump-sum
offset, so a negative periodic amount never flows into the annuity sum. -/
theorem offset_guard (cfg : Config)
    (h : cfg.offsetAnnual ≤ 0 ∨ cfg.offsetYears ≤ 0) :
    (results cfg).pvOffset = cfg.offsetLumpSum := by
  rw [results_pvOffset, pvOffsetOf, if_neg, zero_add]
  rintro ⟨h1, h2⟩
  rcases h with h | h
  · linarith
  · omega

/-- Claim C10 witness: a negative periodic amount with positive offset
years leaves only the lump sum. -/
theorem offset_guard_witness :
    (results cfgNegOffset).pvOffset = cfgNegOffset.offsetLumpSum :=
  offset_guard cfgNegOffset (Or.inl (by with_unfolding_all decide))

/-- Claim C5 counterexample: the 55-row of the work-life table stores 10.53
remaining years, which rounds to 11, not 10 — so the exemplar scenario
produces 11 year rows, not the 10 the claim states. -/
theorem scenario_55_horizon_counterexample :
    (lookupWorklife (55 : ℚ)).years = 11 ∧
    (results cfgC5).rows.length ≠ 10 := by
  with_unfolding_all decide

/-- Claim C5 (amended): the exemplar scenario derives an 11-year horizon
from the 55-row (round 10.53 = 11), produces exactly 11 year rows with the
strictly increasing attained-age column 56..66, and resolves the discount
rate to 2.1%. -/
theorem scenario_55_projection :
    calcYears cfgC5 = 11 ∧
    (results cfgC5).rows.length = 11 ∧
    (results cfgC5).rows.map YearRow.age =
      [56, 57, 58, 59, 60, 61, 62, 63, 64, 65, 66] ∧
    (results cfgC5).disc = 0.021 := by
  with_unfolding_all decide

theorem scanRows_cons {α : Type} (key : α → ℚ) (q : ℚ) (cur r : α) (rest : List α) :
    scanRows key q cur (r :: rest) =
      if key r ≤ q then scanRows key q r rest else cur := rfl

theorem scanRows_rate_lb {α : Type} (key rate : α → ℚ) (q : ℚ) :
    ∀ (l : List α) (cur : α), List.Chain' (fun a b => rate a ≤ rate b) (cur :: l) →
      rate cur ≤ rate (scanRows key q cur l) := by
  intro l
  induction l with
  | nil => intro cur _; exact le_refl _
  | cons r rest ih =>
      intro cur h
      rw [List.chain'_cons] at h
      rw [scanRows_cons]
      split_ifs with hk
      · exact le_trans h.1 (ih r h.2)
      · exact le_refl _

theorem scanRows_rate_mono {α : Type} (key rate : α → ℚ) (q1 q2 : ℚ) (h12 : q1 ≤ q2) :
    ∀ (l : List α) (cur : α), List.Chain' (fun a b => rate a ≤ rate b) (cur :: l) →
      rate (scanRows key q1 cur l) ≤ rate (scanRows key q2 cur l) := by
  intro l
  induction l with
  | nil => intro cur _; exact le_refl _
  | cons r rest ih =>
      intro cur h
      rw [List.chain'_cons] at h
      rw [scanRows_cons, scanRows_cons]
      by_cases hk1 : key r ≤ q1
      · rw [if_pos hk1, if_pos (le_trans hk1 h12)]
        exact ih r h.2
      · rw [if_neg hk1]
        split_ifs with hk2
        · exact le_trans h.1 (scanRows_rate_lb key rate q2 rest r h.2)
        · exact le_refl _

theorem taxNY_high (i : ℚ) (h : 35000 ≤ i) :
    interpolateTaxRate i NY_EFFECTIVE_TAX_TABLE =
      (scanRows (fun r => r.income) i ⟨35000, 0.1293⟩
        (⟨40000, 0.1345⟩ :: ⟨45000, 0.1396⟩ :: ⟨50000, 0.1474⟩ :: ⟨60000, 0.1551⟩ ::
        ⟨70000, 0.1629⟩ :: ⟨80000, 0.1706⟩ :: ⟨90000, 0.1864⟩ :: ⟨100000, 0.2021⟩ ::
        ⟨125000, 0.2180⟩ :: ⟨150000, 0.2338⟩ :: ⟨175000, 0.2497⟩ :: ⟨200000, 0.2655⟩ ::
        ⟨225000, 0.3017⟩ :: ⟨350000, 0.3378⟩ :: ([] : List TaxRow))).rate := by
  have h1 : (10000 : ℚ) ≤ i := by linarith
  have h2 : (20000 : ℚ) ≤ i := by linarith
  have h3 : (25000 : ℚ) ≤ i := by linarith
  have h4 : (30000 : ℚ) ≤ i := by linarith
  show (scanRows (fun r => r.income) i ⟨10000, 0.1482⟩
    (⟨10000, 0.1482⟩ :: ⟨20000, 0.1481⟩ :: ⟨25000, 0.1479⟩ :: ⟨30000, 0.1386⟩ ::
      ⟨35000, 0.1293⟩ ::
      (⟨40000, 0.1345⟩ :: ⟨45000, 0.1396⟩ :: ⟨50000, 0.1474⟩ :: ⟨60000, 0.1551⟩ ::
        ⟨70000, 0.1629⟩ :: ⟨80000, 0.1706⟩ :: ⟨90000, 0.1864⟩ :: ⟨100000, 0.2021⟩ ::
        ⟨125000, 0.2180⟩ :: ⟨150000, 0.2338⟩ :: ⟨175000, 0.2497⟩ :: ⟨200000, 0.2655⟩ ::
        ⟨225000, 0.3017⟩ :: ⟨350000, 0.3378⟩ :: ([] : List TaxRow)))).rate = _
  rw [scanRows_cons, if_pos h1, scanRows_cons, if_pos h2, scanRows_cons, if_pos h3,
    scanRows_cons, if_pos h4, scanRows_cons, if_pos h]

/-- Claim C6 counterexample: the shipped tax table's rates fall over its
first brackets, so the lookup is not non-decreasing across its full domain:
tax(35000) = 0.1293 < 0.1482 = tax(10000). -/
theorem tax_monotone_counterexample :
    (10000 : ℚ) < 35000 ∧
    interpolateTaxRate 35000 NY_EFFECTIVE_TAX_TABLE <
      interpolateTaxRate 10000 NY_EFFECTIVE_TAX_TABLE := by
  with_unfolding_all decide

/-- Claim C6 (amended): over the shipped NY table the tax-rate lookup is
non-decreasing for all income pairs at or above the 35000 threshold, the
point from which the stored rates are themselves non-decreasing. -/
theorem tax_monotone_from_35k (i1 i2 : ℚ) (h1 : 35000 ≤ i1) (h12 : i1 < i2) :
    interpolateTaxRate i1 NY_EFFECTIVE_TAX_TABLE ≤
      interpolateTaxRate i2 NY_EFFECTIVE_TAX_TABLE := by
  rw [taxNY_high i1 h1, taxNY_high i2 (by linarith)]
  exact scanRows_rate_mono (fun r => r.income) (fun r => r.rate) i1 i2
    (le_of_lt h12)
    (⟨40000, 0.1345⟩ :: ⟨45000, 0.1396⟩ :: ⟨50000, 0.1474⟩ :: ⟨60000, 0.1551⟩ ::
        ⟨70000, 0.1629⟩ :: ⟨80000, 0.1706⟩ :: ⟨90000, 0.1864⟩ :: ⟨100000, 0.2021⟩ ::
        ⟨125000, 0.2180⟩ :: ⟨150000, 0.2338⟩ :: ⟨175000, 0.2497⟩ :: ⟨200000, 0.2655⟩ ::
        ⟨225000, 0.3017⟩ :: ⟨350000, 0.3378⟩ :: ([] : List TaxRow)) ⟨35000, 0.1293⟩
    (by norm_num [List.chain'_cons])

/-- Claim C6 witness at the concrete pair 40000 < 90000. -/
theorem tax_monotone_from_35k_witness :
    interpolateTaxRate 40000 NY_EFFECTIVE_TAX_TABLE ≤
      interpolateTaxRate 90000 NY_EFFECTIVE_TAX_TABLE :=
  tax_monotone_from_35k 40000 90000 (by norm_num) (by norm_num)

theorem scanRows_eq_getLastD {α : Type} (key : α → ℚ) (q : ℚ) :
    ∀ (l : List α) (cur : α), List.Pairwise (fun a b => key a < key b) l →
      scanRows key q cur l = (l.filter (fun r => decide (key r ≤ q))).getLastD cur := by
  intro l
  induction l with
  | nil => intro cur _; rfl
  | cons r rest ih =>
      intro cur hp
      rw [List.pairwise_cons] at hp
      rw [scanRows_cons]
      by_cases hk : key r ≤ q
      · rw [if_pos hk, List.filter_cons_of_pos (by simpa using hk),
          List.getLastD_cons, ih r hp.2]
      · rw [if_neg hk, List.filter_cons_of_neg (by simpa using hk)]
        have hnil : rest.filter (fun x => decide (key x ≤ q)) = [] := by
          rw [List.filter_eq_nil_iff]
          intro a ha
          simp only [decide_eq_true_eq]
          intro hle
          exact hk (le_trans (le_of_lt (hp.1 a ha)) hle)
        rw [hnil]
        rfl

/-- Claim C7: on any strictly threshold-ascending table, both bracket
lookups return the value of the row with the highest threshold at most the
query, fall back to the first row's value below every threshold, and return
0 on an empty table (the spec-side restatements `specTaxRate` and
`specConsumptionRate` encode exactly that contract). -/
theorem bracket_lookup_contract (q : ℚ) (m : Marital) (c : ℕ)
    (tT : List TaxRow) (tC : List ConsRow)
    (hT : List.Pairwise (fun a b => a.income < b.income) tT)
    (hC : List.Pairwise (fun a b => a.income < b.income) tC) :
    interpolateTaxRate q tT = specTaxRate q tT ∧
    interpolateConsumption q m c tC = specConsumptionRate q m c tC ∧
    interpolateTaxRate q [] = 0 ∧
    interpolateConsumption q m c [] = 0 := by
  refine ⟨?_, ?_, rfl, rfl⟩
  · cases tT with
    | nil => rfl
    | cons r0 rest =>
        show (scanRows (fun r => r.income) q r0 (r0 :: rest)).rate = _
        rw [scanRows_eq_getLastD (fun r => r.income) q (r0 :: rest) r0 hT]
        rfl
  · cases tC with
    | nil => rfl
    | cons r0 rest =>
        show consumptionColumn m c (scanRows (fun r => r.income) q r0 (r0 :: rest)) = _
        rw [scanRows_eq_getLastD (fun r => r.income) q (r0 :: rest) r0 hC]
        rfl

/-- Claim C7 witness at query 95000 on the shipped tables. -/
theorem bracket_lookup_contract_witness :
    interpolateTaxRate 95000 NY_EFFECTIVE_TAX_TABLE =
      specTaxRate 95000 NY_EFFECTIVE_TAX_TABLE ∧
    interpolateConsumption 95000 Marital.married 1 CONSUMPTION_TABLE =
      specConsumptionRate 95000 Marital.married 1 CONSUMPTION_TABLE := by
  have h := bracket_lookup_contract 95000 Marital.married 1
    NY_EFFECTIVE_TAX_TABLE CONSUMPTION_TABLE
    (by with_unfolding_all decide) (by with_unfolding_all decide)
  exact ⟨h.1, h.2.1⟩

theorem worklife_find (a : ℤ) (h1 : 25 ≤ a) (h2 : a ≤ 70) :
    ∃ e, WORKLIFE_TABLE.find? (fun r => decide (r.age = a)) = some e ∧ e.age = a := by
  interval_cases a <;> exact ⟨_, rfl, rfl⟩

/-- Claim C8: for every rational input age, the clamped rounded lookup age
lies in [25, 70], the exact-match lookup always succeeds there, and the
returned result is the rounded remaining years of the matched row together
with the exit age round(unclamped input age + rounded remaining years). -/
theorem worklife_lookup_contract (age : ℚ) :
    25 ≤ clampAge age ∧ clampAge age ≤ 70 ∧
    ∃ e, WORKLIFE_TABLE.find? (fun r => decide (r.age = clampAge age)) = some e ∧
      e.age = clampAge age ∧
      lookupWorklife age = ⟨jsRound e.years, jsRound (age + (jsRound e.years : ℚ))⟩ := by
  have h1 : 25 ≤ clampAge age := le_max_left _ _
  have h2 : clampAge age ≤ 70 :=
    max_le (by decide) (le_trans (min_le_left _ _) (le_refl _))
  obtain ⟨e, hf, hage⟩ := worklife_find (clampAge age) h1 h2
  refine ⟨h1, h2, e, hf, hage, ?_⟩
  simp only [lookupWorklife]
  rw [hf]

/-- Claim C9: the age-indexed growth lookup returns the tabulated rate for
every age present in the table; for unmapped ages at or above 52 it returns
the configured fallback; for every other unmapped age (including all ages
below 18 and non-integer ages below 52) it returns the hard-coded 3%
regardless of the configured fallback. -/
theorem age_growth_contract (age fallback : ℚ) :
    (∀ r : ℚ, (age, r) ∈ AGE_GROWTH → ageGrowth age fallback = r) ∧
    ((∀ p ∈ AGE_GROWTH, p.1 ≠ age) → 52 ≤ age → ageGrowth age fallback = fallback) ∧
    ((∀ p ∈ AGE_GROWTH, p.1 ≠ age) → age < 52 → ageGrowth age fallback = 0.03) := by
  refine ⟨?_, ?_, ?_⟩
  · intro r hr
    fin_cases hr <;> with_unfolding_all rfl
  · intro hnone h52
    have hf : AGE_GROWTH.find? (fun p => decide (p.1 = age)) = none := by
      rw [List.find?_eq_none]
      intro p hp
      simpa using hnone p hp
    simp only [ageGrowth]
    rw [hf]
    show (if 52 ≤ age then fallback else 0.03) = fallback
    rw [if_pos h52]
  · intro hnone hlt
    have hf : AGE_GROWTH.find? (fun p => decide (p.1 = age)) = none := by
      rw [List.find?_eq_none]
      intro p hp
      simpa using hnone p hp
    simp only [ageGrowth]
    rw [hf]
    show (if 52 ≤ age then fallback else 0.03) = 0.03
    rw [if_neg (not_le.mpr hlt)]

/-- Claim C9 witness: a tabulated age (30), an unmapped age above the cutoff
(80, returning the configured fallback 1/2), and an unmapped age below it
(30.5, returning 3% despite the fallback 1/2). -/
theorem age_growth_contract_witness :
    ageGrowth 30 (1 / 2) = 0.07256 ∧ ageGrowth 80 (1 / 2) = 1 / 2 ∧
    ageGrowth 30.5 (1 / 2) = 0.03 := by
  have h30 := age_growth_contract 30 (1 / 2)
  have h80 := age_growth_contract 80 (1 / 2)
  have h305 := age_growth_contract 30.5 (1 / 2)
  exact ⟨h30.1 0.07256 (by norm_num [AGE_GROWTH]),
    h80.2.1 (by with_unfolding_all decide) (by norm_num),
    h305.2.2 (by with_unfolding_all decide) (by norm_num)⟩
